import Mathlib

/-!
Verification development for the Movie_Review backend
(`src/contollers/users.controller.js`, middleware `authenticateToken`, and the
router wiring of `routes`).  The controllers are shallowly embedded as pure
functions over an explicit store (`DB`), returning a response value together
with the updated store.  Library primitives that the repository delegates to
(bcrypt hashing, JWT signing/verification) live outside `src/` and are
modelled concretely from the spec's Token Service description, with the
round-trip behaviour the spec attributes to them.
-/

namespace MovieReview

/-- A stored `User` row: unique `username`/`email`, hashed `password`,
optional persisted `refreshToken`, profile field `fullName`. -/
structure User where
  id : Nat
  fullName : String
  email : String
  username : String
  password : String
  refreshToken : Option String
deriving DecidableEq, Repr

/-- A stored `Movie` row (read-only reference entity). -/
structure Movie where
  id : Nat
  title : String
deriving DecidableEq, Repr

/-- A stored `Review` row: foreign keys `movieId`/`userId`, payload
`reviewText` and `rating`. -/
structure Review where
  id : Nat
  movieId : Nat
  reviewText : String
  rating : Nat
  userId : Nat
deriving DecidableEq, Repr

/-- The relational store accessed through the ORM client: the three tables
plus the auto-increment counters for the two tables this core inserts into. -/
structure DB where
  users : List User
  movies : List Movie
  reviews : List Review
  nextUserId : Nat
  nextReviewId : Nat
deriving DecidableEq, Repr

/-- JavaScript truthiness of an optional string value: `undefined` and the
empty string are falsy.  Used wherever the source tests `!token`,
`!username`, etc. -/
def falsyOpt : Option String → Bool
  | none => true
  | some s => s == ""

/-- JavaScript `String.prototype.toLowerCase` on the character data
(`username.toLowerCase()` in `registerUser`). -/
def lowerStr (s : String) : String := String.mk (s.data.map Char.toLower)

/-- Whitespace as trimmed by JavaScript `String.prototype.trim`. -/
def isWs (c : Char) : Bool := c == ' ' || c == '\t' || c == '\n' || c == '\r'

/-- Drop leading whitespace from a character list. -/
def dropWs : List Char → List Char
  | [] => []
  | c :: cs => if isWs c then dropWs cs else c :: cs

/-- JavaScript `String.prototype.trim`: strip whitespace from both ends
(`field.trim()` in `registerUser`'s blank-field check). -/
def trimStr (s : String) : String :=
  String.mk (((dropWs s.data).reverse |> dropWs).reverse)

/-- JavaScript `String.prototype.split(' ')` on the character data:
space-separated components, preserving empty components. -/
def splitSp : List Char → List Char → List String
  | [], acc => [String.mk acc.reverse]
  | c :: rest, acc =>
    if c == ' ' then String.mk acc.reverse :: splitSp rest []
    else splitSp rest (c :: acc)

/-- Modelled from the spec: `hashPassword` (bcrypt adaptive hash, from
`utils/authUtils.js`, which is not under `src/`).  Modelled as a concrete
injective tagging so that `verifyPassword` can recompute it. -/
def hashPassword (p : String) : String := String.mk ('h' :: p.data)

/-- Modelled from the spec: `verifyPassword` (bcrypt compare, from
`utils/authUtils.js`): succeeds exactly on the hash produced from the same
plaintext. -/
def verifyPassword (p h : String) : Bool := h == hashPassword p

/-- Modelled from the spec: Token Service `issueAccessToken` — a signed
access token deterministically encoding the user identity
(`generateAccessToken` in `utils/authUtils.js`, not under `src/`). -/
def generateAccessToken (userId : Nat) : String :=
  String.mk ('a' :: List.replicate userId 'x')

/-- Modelled from the spec: Token Service `issueRefreshToken` — same
mechanism as the access token but a distinct token family
(`generateRefreshToken` in `utils/authUtils.js`, not under `src/`). -/
def generateRefreshToken (userId : Nat) : String :=
  String.mk ('r' :: List.replicate userId 'x')

/-- Modelled from the spec: Token Service `verify` — recovers the identity
encoded in a well-formed access token and fails (`none`) on anything else
(tampered, empty, or refresh-family tokens). -/
def verifyToken (t : String) : Option Nat :=
  match t.data with
  | 'a' :: rest => if rest.all (fun c => c == 'x') then some rest.length else none
  | _ => none

/-- Outcome of the `authenticateToken` middleware: terminate with 401,
terminate with 403, or attach the decoded identity and call `next()`. -/
inductive AuthOutcome where
  | unauthorized
  | forbidden
  | next (userId : Nat)
deriving DecidableEq, Repr

/-- The `authenticateToken` middleware: reads `req.cookies.accessToken`;
falsy → 401; verification failure → 403; otherwise attaches the decoded
identity and continues. -/
def authenticateToken (cookieAccessToken : Option String) : AuthOutcome :=
  if falsyOpt cookieAccessToken then .unauthorized
  else
    match verifyToken (cookieAccessToken.getD "") with
    | none => .forbidden
    | some userId => .next userId

/-- `generateAccessAndRefreshTokens`: look the user up by id; if absent the
thrown 404 is swallowed by the function's own catch into a 500 (`none`);
otherwise issue both tokens and persist the refresh token on the user row. -/
def generateAccessAndRefreshTokens (userId : Nat) (db : DB) :
    Option (String × String) × DB :=
  match db.users.find? (fun u => u.id == userId) with
  | none => (none, db)
  | some _ =>
    let accessToken := generateAccessToken userId
    let refreshToken := generateRefreshToken userId
    (some (accessToken, refreshToken),
     { db with users := db.users.map (fun u =>
         if u.id == userId then { u with refreshToken := some refreshToken } else u) })

/-- The user payload returned by `registerUser`: the created row with the
`password` field stripped (`{...user, password: undefined}`). -/
structure RegisteredUser where
  id : Nat
  fullName : String
  email : String
  username : String
  refreshToken : Option String
deriving DecidableEq, Repr

/-- Response of `registerUser`: HTTP status plus the created-user payload on
success. -/
structure RegisterResp where
  status : Nat
  user : Option RegisteredUser
deriving DecidableEq, Repr

/-- `registerUser`: 400 on any blank field, 409 when `findFirst` matches the
lowercased username or the exact email, otherwise insert the user (username
lowercased, password hashed) and answer 201. -/
def registerUser (fullName email username password : String) (db : DB) :
    RegisterResp × DB :=
  if trimStr fullName == "" || trimStr email == "" || trimStr username == "" || trimStr password == "" then
    (⟨400, none⟩, db)
  else
    match db.users.find? (fun u => u.username == lowerStr username || u.email == email) with
    | some _ => (⟨409, none⟩, db)
    | none =>
      let user : User :=
        ⟨db.nextUserId, fullName, email, lowerStr username, hashPassword password, none⟩
      (⟨201, some ⟨user.id, fullName, email, lowerStr username, none⟩⟩,
       { db with users := db.users ++ [user], nextUserId := db.nextUserId + 1 })

/-- The user payload returned by `loginUser`: the matched row with both the
`password` and `refreshToken` fields stripped. -/
structure PublicUser where
  id : Nat
  fullName : String
  email : String
  username : String
deriving DecidableEq, Repr

/-- Strip `password` and `refreshToken` from a user row
(`{...user, password: undefined, refreshToken: undefined}`). -/
def stripUser (u : User) : PublicUser := ⟨u.id, u.fullName, u.email, u.username⟩

/-- A `res.cookie(name, value, options)` call: `httpOnly` always set, `secure`
set from the environment check. -/
structure Cookie where
  name : String
  value : String
  httpOnly : Bool
  secure : Bool
deriving DecidableEq, Repr

/-- Success body of `loginUser`: stripped user plus both tokens. -/
structure LoginBody where
  user : PublicUser
  accessToken : String
  refreshToken : String
deriving DecidableEq, Repr

/-- Response of `loginUser`: HTTP status, optional success body and the
cookies set on the response. -/
structure LoginResp where
  status : Nat
  body : Option LoginBody
  cookies : List Cookie
deriving DecidableEq, Repr

/-- The `findFirst` predicate of `loginUser`: `OR` over the identifiers the
request actually supplied (the ORM is external; per the spec the lookup is
"find user by email or username", so an absent identifier contributes no
match condition). -/
def loginMatch (username email : Option String) (u : User) : Bool :=
  (match username with
   | some s => u.username == s
   | none => false) ||
  (match email with
   | some s => u.email == s
   | none => false)

/-- `loginUser`: 400 when both identifiers are falsy, 404 when `findFirst`
matches nobody, 401 on password mismatch; on success issue and persist the
tokens and answer 200 with the stripped user, both tokens in the body, and
both tokens as `httpOnly` cookies whose `secure` flag is the
`NODE_ENV === 'production'` check. -/
def loginUser (username email : Option String) (password : String)
    (nodeEnv : String) (db : DB) : LoginResp × DB :=
  if falsyOpt username && falsyOpt email then (⟨400, none, []⟩, db)
  else
    match db.users.find? (loginMatch username email) with
    | none => (⟨404, none, []⟩, db)
    | some user =>
      if !verifyPassword password user.password then (⟨401, none, []⟩, db)
      else
        match generateAccessAndRefreshTokens user.id db with
        | (none, db2) => (⟨500, none, []⟩, db2)
        | (some (accessToken, refreshToken), db2) =>
          let secureFlag := nodeEnv == "production"
          (⟨200, some ⟨stripUser user, accessToken, refreshToken⟩,
            [⟨"accessToken", accessToken, true, secureFlag⟩,
             ⟨"refreshToken", refreshToken, true, secureFlag⟩]⟩, db2)

/-- Response of `getMovieWithReviews`: 404 or the movie with its nested
reviews, each review paired with its author row (the `include` clause). -/
structure MovieResp where
  status : Nat
  body : Option (Movie × List (Review × Option User))
deriving DecidableEq, Repr

/-- `getMovieWithReviews`: `findUnique` on the movie id, 404 when absent,
otherwise 200 with the movie's reviews and each review's user included. -/
def getMovieWithReviews (id : Nat) (db : DB) : MovieResp :=
  match db.movies.find? (fun m => m.id == id) with
  | none => ⟨404, none⟩
  | some movie =>
    ⟨200, some (movie,
      (db.reviews.filter (fun r => r.movieId == id)).map
        (fun r => (r, db.users.find? (fun u => u.id == r.userId))))⟩

/-- `req.headers.authorization?.split(' ')[1]`: the bearer part of the
`Authorization` header, when the header is present and has a second
space-separated component. -/
def extractBearer (authorization : Option String) : Option String :=
  match authorization with
  | none => none
  | some h => (splitSp h.data [])[1]?

/-- Response of `createReview`: HTTP status plus the created review. -/
structure CreateReviewResp where
  status : Nat
  review : Option Review
deriving DecidableEq, Repr

/-- `createReview`: takes its token from the `Authorization` header (not the
cookie the Auth Gate checked); falsy token → 401.  When a token is present
the handler calls `verifyToken(token)`, but the controller neither imports
nor defines any `verifyToken`, so that call throws `ReferenceError` and the
surrounding catch answers 500: the insert below it is dead code, no review
is ever created and the handler never answers 201. -/
def createReview (id : Nat) (authorization : Option String)
    (reviewText : String) (rating : Nat) (db : DB) : CreateReviewResp × DB :=
  match extractBearer authorization with
  | none => (⟨401, none⟩, db)
  | some token =>
    if token == "" then (⟨401, none⟩, db)
    else (⟨500, none⟩, db)

/-- Response of `updateReview`: HTTP status plus the updated review row. -/
structure UpdateResp where
  status : Nat
  review : Option Review
deriving DecidableEq, Repr

/-- The row transformation of `prisma.review.update`: set `reviewText` and
`rating` on the row with the given id, leave every other row alone. -/
def applyUpdate (reviewId : Nat) (reviewText : String) (rating : Nat)
    (r : Review) : Review :=
  if r.id == reviewId then { r with reviewText := reviewText, rating := rating }
  else r

/-- `updateReview`: `prisma.review.update` by id sets `reviewText` and
`rating`; a missing row makes the ORM call throw, caught into a 500.  No
ownership check of any kind. -/
def updateReview (reviewId : Nat) (reviewText : String) (rating : Nat)
    (db : DB) : UpdateResp × DB :=
  match db.reviews.find? (fun r => r.id == reviewId) with
  | none => (⟨500, none⟩, db)
  | some r =>
    (⟨200, some (applyUpdate reviewId reviewText rating r)⟩,
     { db with reviews := db.reviews.map (applyUpdate reviewId reviewText rating) })

/-- Response of `deleteReview`: 204 with no content, or 500. -/
structure DeleteResp where
  status : Nat
deriving DecidableEq, Repr

/-- `deleteReview`: `prisma.review.delete` by id; a missing row makes the ORM
call throw, caught into a 500.  No ownership check of any kind. -/
def deleteReview (reviewId : Nat) (db : DB) : DeleteResp × DB :=
  match db.reviews.find? (fun r => r.id == reviewId) with
  | none => (⟨500⟩, db)
  | some _ =>
    (⟨204⟩, { db with reviews := db.reviews.filter (fun r => r.id != reviewId) })

/-- Response of `getcurrentUser`: `res.json(user)` of the `findUnique` result
— the raw stored row, nothing stripped. -/
structure CurrentUserResp where
  status : Nat
  user : Option User
deriving DecidableEq, Repr

/-- `getcurrentUser`: `findUnique` on `req.user._id` and return the row as
is. -/
def getcurrentUser (userId : Nat) (db : DB) : CurrentUserResp :=
  ⟨200, db.users.find? (fun u => u.id == userId)⟩

/-- Route `POST /createreview` as wired in the router: `authenticateToken`
on the cookie, then `createReview` on the same request. -/
def createReviewRoute (cookieAccessToken authorization : Option String)
    (id : Nat) (reviewText : String) (rating : Nat) (db : DB) :
    CreateReviewResp × DB :=
  match authenticateToken cookieAccessToken with
  | .unauthorized => (⟨401, none⟩, db)
  | .forbidden => (⟨403, none⟩, db)
  | .next _ => createReview id authorization reviewText rating db

/-- Route `POST /updatereview`: `authenticateToken` then `updateReview`. -/
def updateReviewRoute (cookieAccessToken : Option String) (reviewId : Nat)
    (reviewText : String) (rating : Nat) (db : DB) : UpdateResp × DB :=
  match authenticateToken cookieAccessToken with
  | .unauthorized => (⟨401, none⟩, db)
  | .forbidden => (⟨403, none⟩, db)
  | .next _ => updateReview reviewId reviewText rating db

/-- Route `POST /deletereview`: `authenticateToken` then `deleteReview`. -/
def deleteReviewRoute (cookieAccessToken : Option String) (reviewId : Nat)
    (db : DB) : DeleteResp × DB :=
  match authenticateToken cookieAccessToken with
  | .unauthorized => (⟨401⟩, db)
  | .forbidden => (⟨403⟩, db)
  | .next _ => deleteReview reviewId db

/-- Route `GET /currentuser`: `authenticateToken` then `getcurrentUser` on
the attached identity. -/
def getcurrentUserRoute (cookieAccessToken : Option String) (db : DB) :
    CurrentUserResp :=
  match authenticateToken cookieAccessToken with
  | .unauthorized => ⟨401, none⟩
  | .forbidden => ⟨403, none⟩
  | .next userId => getcurrentUser userId db

/-- A sample stored user (id 1, username "bob", email "a@x.com"). -/
def sampleUser : User := ⟨1, "Bob B", "a@x.com", "bob", hashPassword "pw1", none⟩

/-- A sample stored movie (id 1). -/
def sampleMovie : Movie := ⟨1, "Sample"⟩

/-- A sample store with one user and one movie and no reviews. -/
def sampleDB : DB := ⟨[sampleUser], [sampleMovie], [], 2, 1⟩

/-- A sample stored review (id 1, movie 1, author 1). -/
def sampleReview : Review := ⟨1, 1, "ok", 3, 1⟩

/-- A sample store that also holds one review. -/
def sampleDBR : DB := ⟨[sampleUser], [sampleMovie], [sampleReview], 2, 2⟩

/-- A second sample review (id 2) on the same movie. -/
def sampleReview2 : Review := ⟨2, 1, "nice", 4, 1⟩

/-- A sample store holding two reviews of the same movie. -/
def sampleDBR2 : DB := ⟨[sampleUser], [sampleMovie], [sampleReview, sampleReview2], 2, 3⟩

/-- A sample user with a persisted refresh token (id 3). -/
def sampleUserR : User :=
  ⟨3, "Carl C", "c@x.com", "carl", hashPassword "pw3", some (generateRefreshToken 3)⟩

/-- A sample store whose only user carries a persisted refresh token. -/
def sampleDBU : DB := ⟨[sampleUserR], [sampleMovie], [], 4, 1⟩

/-! ## Helper lemmas -/

/-- Token Service round trip: verifying an issued access token recovers the
encoded identity. -/
theorem verifyToken_generateAccessToken (userId : Nat) :
    verifyToken (generateAccessToken userId) = some userId := by
  simp [verifyToken, generateAccessToken, List.all_eq_true]

/-- An issued access token is never the empty string. -/
theorem generateAccessToken_ne_empty (userId : Nat) :
    generateAccessToken userId ≠ "" := by
  intro h
  have hd : (generateAccessToken userId).data = "".data := congrArg String.data h
  simp [generateAccessToken] at hd

/-- A cookie holding an issued access token passes the Auth Gate and attaches
the encoded identity. -/
theorem authenticateToken_issued (userId : Nat) :
    authenticateToken (some (generateAccessToken userId)) = .next userId := by
  simp [authenticateToken, falsyOpt, verifyToken_generateAccessToken,
    generateAccessToken_ne_empty userId]

/-- `find?` over an appended list when the first part has no match. -/
theorem find?_append_of_none {α : Type} (p : α → Bool) (l1 l2 : List α)
    (h : l1.find? p = none) : (l1 ++ l2).find? p = l2.find? p := by
  rw [List.find?_append, h, Option.none_or]

/-- A string whose trimmed form is nonempty is itself nonempty. -/
theorem ne_empty_of_trim_ne_empty (s : String) (h : trimStr s ≠ "") : s ≠ "" := by
  intro hs
  exact h (by rw [hs]; rfl)

/-- Lowercasing a nonempty string yields a nonempty string. -/
theorem lowerStr_ne_empty (s : String) (h : s ≠ "") : lowerStr s ≠ "" := by
  intro hl
  apply h
  have hd : (lowerStr s).data = "".data := congrArg String.data hl
  simp only [lowerStr] at hd
  have : s.data = [] := by
    cases hmap : s.data.map Char.toLower with
    | nil => exact List.map_eq_nil_iff.mp hmap
    | cons c cs => rw [hmap] at hd; simp at hd
  cases s with
  | mk data => simp_all

/-! ## Claim theorems -/

/-- **C1**: the claim says a cookie-authenticated request to `createReview`
inserts a review for the authenticated identity and answers 201, failing
only with InternalError, using the cookie-transported token.  The handler
cannot: it reads the `Authorization` header (401 when that carries no
token), and on a present header token the unbound `verifyToken` reference
throws, so it answers 500.  No input ever yields 201, creates a review, or
changes the store; the concrete failing input — a valid cookie for user 1
together with a valid bearer token for user 1 — answers 500, and dropping
the header answers 401 despite the cookie-authenticated identity. -/
theorem createReview_dead_handler :
    (∀ (cookie authorization : Option String) (movieId : Nat)
      (reviewText : String) (rating : Nat) (db : DB),
      ((createReviewRoute cookie authorization movieId reviewText rating db).1.status = 401 ∨
       (createReviewRoute cookie authorization movieId reviewText rating db).1.status = 403 ∨
       (createReviewRoute cookie authorization movieId reviewText rating db).1.status = 500) ∧
      (createReviewRoute cookie authorization movieId reviewText rating db).1.review = none ∧
      (createReviewRoute cookie authorization movieId reviewText rating db).2 = db) ∧
    authenticateToken (some (generateAccessToken 1)) = .next 1 ∧
    (createReviewRoute (some (generateAccessToken 1))
        (some ("Bearer " ++ generateAccessToken 1)) 1 "great" 5 sampleDB).1.status = 500 ∧
    (createReviewRoute (some (generateAccessToken 1)) none 1 "great" 5 sampleDB).1.status
      = 401 ∧
    (createReviewRoute (some (generateAccessToken 1))
        (some ("Bearer " ++ generateAccessToken 1)) 1 "great" 5 sampleDB).2 = sampleDB := by
  refine ⟨?_, by decide, by decide, by decide, by decide⟩
  intro cookie authorization movieId reviewText rating db
  cases hc : authenticateToken cookie with
  | unauthorized => simp [createReviewRoute, hc]
  | forbidden => simp [createReviewRoute, hc]
  | next uid =>
    cases ht : extractBearer authorization with
    | none => simp [createReviewRoute, hc, createReview, ht]
    | some t =>
      by_cases he : (t == "") = true <;>
        simp [createReviewRoute, hc, createReview, ht, he]

/-- **C2** (counterexample).  The claim says register-then-login with the
same username and password always succeeds.  Registering username "A1"
succeeds (stored lowercased as "a1"), but a login supplying the same
username "A1" answers 404: `loginUser` does not lowercase the username
before the lookup. -/
theorem register_then_login_cex :
    (registerUser "A" "a2@x.com" "A1" "pw" sampleDB).1.status = 201 ∧
    (loginUser (some "A1") none "pw" "production"
        (registerUser "A" "a2@x.com" "A1" "pw" sampleDB).2).1.status = 404 := by
  refine ⟨by decide, by decide⟩

/-- **C2** (amended): after a successful registration, a login supplying the
LOWERCASED username together with the same password succeeds and returns an
access token that verifies to the new user's identity (with the original
mixed-case username the lookup misses — see the counterexample). -/
theorem register_then_login_lowercased
    (fullName email username password nodeEnv : String) (db : DB)
    (hf : trimStr fullName ≠ "") (he : trimStr email ≠ "")
    (hu : trimStr username ≠ "") (hp : trimStr password ≠ "")
    (hnc : db.users.find?
      (fun u => u.username == lowerStr username || u.email == email) = none)
    (hfresh : ∀ u ∈ db.users, u.id < db.nextUserId) :
    (registerUser fullName email username password db).1.status = 201 ∧
    (loginUser (some (lowerStr username)) none password nodeEnv
        (registerUser fullName email username password db).2).1.status = 200 ∧
    ∃ b, (loginUser (some (lowerStr username)) none password nodeEnv
        (registerUser fullName email username password db).2).1.body = some b ∧
      verifyToken b.accessToken = some db.nextUserId := by
  have hlu : lowerStr username ≠ "" :=
    lowerStr_ne_empty username (ne_empty_of_trim_ne_empty username hu)
  have hreg : registerUser fullName email username password db =
      (⟨201, some ⟨db.nextUserId, fullName, email, lowerStr username, none⟩⟩,
       { db with
           users := db.users ++
             [⟨db.nextUserId, fullName, email, lowerStr username, hashPassword password, none⟩],
           nextUserId := db.nextUserId + 1 }) := by
    simp [registerUser, hf, he, hu, hp, hnc]
  refine ⟨by rw [hreg], ?_⟩
  rw [hreg]
  set newUser : User :=
    ⟨db.nextUserId, fullName, email, lowerStr username, hashPassword password, none⟩ with hnew
  have hmatch1 : db.users.find? (loginMatch (some (lowerStr username)) none) = none := by
    rw [List.find?_eq_none]
    intro u hu2
    have hnone := List.find?_eq_none.mp hnc u hu2
    simp [loginMatch]
    intro heq
    exact absurd (by simp [heq]) hnone
  have hfind : (db.users ++ [newUser]).find? (loginMatch (some (lowerStr username)) none)
      = some newUser := by
    rw [find?_append_of_none _ _ _ hmatch1]
    simp [List.find?, loginMatch, hnew]
  have hfind2 : ((db.users ++ [newUser]).find? (fun u => u.id == db.nextUserId))
      = some newUser := by
    rw [find?_append_of_none]
    · simp [List.find?, hnew]
    · rw [List.find?_eq_none]
      intro u hu2
      simp
      exact Nat.ne_of_lt (hfresh u hu2)
  simp only [loginUser, falsyOpt, hfind, generateAccessAndRefreshTokens]
  rw [if_neg (by simp [hlu])]
  simp only [hfind2]
  have hpw : verifyPassword password newUser.password = true := by
    simp [verifyPassword, hnew]
  simp [hpw, verifyToken_generateAccessToken]

/-- **C2** (witness): registering "A1"/"pw" into the sample store and logging
in with "a1"/"pw" succeeds with a token verifying to the fresh id 2. -/
theorem register_then_login_lowercased_witness :
    (registerUser "A" "a2@x.com" "A1" "pw" sampleDB).1.status = 201 ∧
    (loginUser (some (lowerStr "A1")) none "pw" "production"
        (registerUser "A" "a2@x.com" "A1" "pw" sampleDB).2).1.status = 200 ∧
    ∃ b, (loginUser (some (lowerStr "A1")) none "pw" "production"
        (registerUser "A" "a2@x.com" "A1" "pw" sampleDB).2).1.body = some b ∧
      verifyToken b.accessToken = some sampleDB.nextUserId :=
  register_then_login_lowercased "A" "a2@x.com" "A1" "pw" "production" sampleDB
    (by decide) (by decide) (by decide) (by decide) (by decide)
    (by decide)

/-- **C3** (counterexample).  The claim says a register whose email is any
case variant of an existing user's email fails with 409 and leaves the store
unchanged.  With "a@x.com" stored, registering the case variant "A@X.COM"
(fresh username) succeeds with 201 and grows the store: the email conflict
check is exact, not case-insensitive. -/
theorem register_conflict_cex :
    lowerStr "A@X.COM" = lowerStr sampleUser.email ∧
    "A@X.COM" ≠ sampleUser.email ∧
    (registerUser "C" "A@X.COM" "carol" "pw2" sampleDB).1.status = 201 ∧
    (registerUser "C" "A@X.COM" "carol" "pw2" sampleDB).2.users ≠ sampleDB.users := by
  refine ⟨by decide, by decide, by decide, by decide⟩

/-- **C3** (amended): registration fails with 409 — leaving the store
unchanged — exactly on the conflicts the code checks: a stored user whose
username equals the LOWERCASED incoming username, or whose email equals the
incoming email case-SENSITIVELY (case variants of the email are not
detected; see the counterexample). -/
theorem registerUser_conflict
    (fullName email username password : String) (db : DB)
    (hf : trimStr fullName ≠ "") (he : trimStr email ≠ "")
    (hu : trimStr username ≠ "") (hp : trimStr password ≠ "")
    (hc : ∃ u ∈ db.users, u.username = lowerStr username ∨ u.email = email) :
    (registerUser fullName email username password db).1 = ⟨409, none⟩ ∧
    (registerUser fullName email username password db).2 = db := by
  obtain ⟨u, hmem, hor⟩ := hc
  have hsome : (db.users.find?
      (fun u => u.username == lowerStr username || u.email == email)).isSome := by
    rw [List.find?_isSome]
    exact ⟨u, hmem, by rcases hor with h | h <;> simp [h]⟩
  obtain ⟨v, hv⟩ := Option.isSome_iff_exists.mp hsome
  simp [registerUser, hf, he, hu, hp, hv]

/-- **C3** (witness): registering with the exact stored email "a@x.com" (and
a fresh username) yields 409 and an unchanged store. -/
theorem registerUser_conflict_witness :
    (registerUser "C" "a@x.com" "carol" "pw2" sampleDB).1 = ⟨409, none⟩ ∧
    (registerUser "C" "a@x.com" "carol" "pw2" sampleDB).2 = sampleDB :=
  registerUser_conflict "C" "a@x.com" "carol" "pw2" sampleDB
    (by decide) (by decide) (by decide) (by decide)
    ⟨sampleUser, by decide, Or.inr (by decide)⟩

/-- **C4**: `updateReview` and `deleteReview` never consult the requesting
identity: for any two cookies that pass the Auth Gate (whatever identities
they carry, owner or not), the routed update and delete of an existing
review produce identical responses and identical stores, and both succeed
(200 resp. 204). -/
theorem review_mutation_identity_independent
    (c1 c2 : Option String) (u1 u2 : Nat)
    (h1 : authenticateToken c1 = .next u1) (h2 : authenticateToken c2 = .next u2)
    (reviewId : Nat) (reviewText : String) (rating : Nat) (db : DB)
    (hex : ∃ r ∈ db.reviews, r.id = reviewId) :
    updateReviewRoute c1 reviewId reviewText rating db =
      updateReviewRoute c2 reviewId reviewText rating db ∧
    (updateReviewRoute c1 reviewId reviewText rating db).1.status = 200 ∧
    deleteReviewRoute c1 reviewId db = deleteReviewRoute c2 reviewId db ∧
    (deleteReviewRoute c1 reviewId db).1.status = 204 := by
  have hsome : (db.reviews.find? (fun r => r.id == reviewId)).isSome := by
    rw [List.find?_isSome]
    obtain ⟨r, hr, hid⟩ := hex
    exact ⟨r, hr, by simp [hid]⟩
  obtain ⟨r0, hr0⟩ := Option.isSome_iff_exists.mp hsome
  refine ⟨?_, ?_, ?_, ?_⟩ <;>
    simp [updateReviewRoute, deleteReviewRoute, h1, h2, updateReview,
      deleteReview, hr0]

/-- **C4** (witness): with cookies for identities 1 (the review's owner) and
9 (not the owner), updating and deleting review 1 behave identically and
succeed. -/
theorem review_mutation_identity_independent_witness :
    updateReviewRoute (some (generateAccessToken 1)) 1 "new" 4 sampleDBR =
      updateReviewRoute (some (generateAccessToken 9)) 1 "new" 4 sampleDBR ∧
    (updateReviewRoute (some (generateAccessToken 1)) 1 "new" 4 sampleDBR).1.status = 200 ∧
    deleteReviewRoute (some (generateAccessToken 1)) 1 sampleDBR =
      deleteReviewRoute (some (generateAccessToken 9)) 1 sampleDBR ∧
    (deleteReviewRoute (some (generateAccessToken 1)) 1 sampleDBR).1.status = 204 :=
  review_mutation_identity_independent
    (some (generateAccessToken 1)) (some (generateAccessToken 9)) 1 9
    (by decide) (by decide) 1 "new" 4 sampleDBR ⟨sampleReview, by decide, by decide⟩

/-- **C5** (counterexample).  The claim says the Auth Gate rejects 401 if
and only if the access-token cookie is absent, and that a present cookie
goes to token verification (403 on failure).  A cookie that is present but
carries the empty value is rejected 401 by the falsy `!token` test without
any verification call. -/
theorem authenticateToken_empty_cookie_cex :
    authenticateToken (some "") = .unauthorized ∧ (some "" : Option String) ≠ none := by
  refine ⟨by decide, by decide⟩

/-- **C5** (amended): the Auth Gate answers 401 exactly when the
access-token cookie is absent OR carries the empty value (the code's
`!token` test); when a nonempty cookie is present it calls token
verification, answers 403 exactly when verification fails, and otherwise
attaches the decoded identity and invokes the next stage. -/
theorem authenticateToken_gate (t : Option String) :
    (authenticateToken t = .unauthorized ↔ (t = none ∨ t = some "")) ∧
    (∀ s, t = some s → s ≠ "" →
      ((authenticateToken t = .forbidden ↔ verifyToken s = none) ∧
       (∀ uid, verifyToken s = some uid → authenticateToken t = .next uid))) := by
  constructor
  · cases t with
    | none => simp [authenticateToken, falsyOpt]
    | some s =>
      by_cases hs : s = ""
      · simp [authenticateToken, falsyOpt, hs]
      · cases hv : verifyToken s <;> simp [authenticateToken, falsyOpt, hs, hv]
  · rintro s rfl hs
    cases hv : verifyToken s <;> simp [authenticateToken, falsyOpt, hs, hv]

/-- **C5** (witness): a cookie holding the issued token for identity 5 passes
the gate and attaches identity 5. -/
theorem authenticateToken_gate_witness :
    authenticateToken (some (generateAccessToken 5)) = .next 5 :=
  ((authenticateToken_gate (some (generateAccessToken 5))).2
    (generateAccessToken 5) rfl (by decide)).2 5 (by decide)

/-- **C6** (counterexample).  The claim says a login supplying an identifier
that matches no user fails with 404.  Supplying the empty-string username
(which matches no stored user) fails with 400 instead: the `!username`
guard treats a supplied empty identifier as missing. -/
theorem loginUser_empty_identifier_cex :
    loginUser (some "") none "pw" "production" sampleDB = (⟨400, none, []⟩, sampleDB) ∧
    sampleDB.users.find? (loginMatch (some "") none) = none := by
  refine ⟨by decide, by decide⟩

/-- **C6** (amended): login failure taxonomy with "supplied" read as
supplied and non-empty (JS truthiness) — 400 when neither identifier is
truthy, 404 when an identifier is given but the lookup matches nobody, 401
when a user matches but password verification fails; in every failure case
the response carries no tokens or cookies and the store is returned
unchanged. -/
theorem loginUser_failures (username email : Option String)
    (password nodeEnv : String) (db : DB) :
    (falsyOpt username = true → falsyOpt email = true →
      loginUser username email password nodeEnv db = (⟨400, none, []⟩, db)) ∧
    (¬(falsyOpt username = true ∧ falsyOpt email = true) →
      db.users.find? (loginMatch username email) = none →
      loginUser username email password nodeEnv db = (⟨404, none, []⟩, db)) ∧
    (∀ u, db.users.find? (loginMatch username email) = some u →
      ¬(falsyOpt username = true ∧ falsyOpt email = true) →
      verifyPassword password u.password = false →
      loginUser username email password nodeEnv db = (⟨401, none, []⟩, db)) := by
  refine ⟨?_, ?_, ?_⟩
  · intro h1 h2
    simp [loginUser, h1, h2]
  · intro h1 h2
    have hb : (falsyOpt username && falsyOpt email) = false := by
      cases hu : falsyOpt username <;> cases he : falsyOpt email <;> simp_all
    simp [loginUser, hb, h2]
  · intro u h2 h1 h3
    have hb : (falsyOpt username && falsyOpt email) = false := by
      cases hu : falsyOpt username <;> cases he : falsyOpt email <;> simp_all
    simp [loginUser, hb, h2, h3]

/-- **C6** (witness): on the sample store, login with no identifiers gives
400, with unknown username "alice" gives 404, with known username "bob" and
a wrong password gives 401 — all without tokens, cookies or store change. -/
theorem loginUser_failures_witness :
    loginUser none none "pw" "production" sampleDB = (⟨400, none, []⟩, sampleDB) ∧
    loginUser (some "alice") none "pw" "production" sampleDB
      = (⟨404, none, []⟩, sampleDB) ∧
    loginUser (some "bob") none "wrong" "production" sampleDB
      = (⟨401, none, []⟩, sampleDB) :=
  ⟨(loginUser_failures none none "pw" "production" sampleDB).1 rfl rfl,
   (loginUser_failures (some "alice") none "pw" "production" sampleDB).2.1
     (by decide) (by decide),
   (loginUser_failures (some "bob") none "wrong" "production" sampleDB).2.2
     sampleUser (by decide) (by decide) (by decide)⟩

/-- **C7**: a successful login answers 200 with the matched user stripped of
`password` and `refreshToken` (the body's user is the `PublicUser`
projection) plus both issued tokens, sets the same two tokens as cookies
with `httpOnly` always true and `secure` exactly when
`NODE_ENV = "production"`, and persists the issued refresh token on every
stored row of that user. -/
theorem loginUser_success (username email : Option String)
    (password nodeEnv : String) (db : DB) (u : User)
    (hid : ¬(falsyOpt username = true ∧ falsyOpt email = true))
    (hfind : db.users.find? (loginMatch username email) = some u)
    (hpw : verifyPassword password u.password = true) :
    (loginUser username email password nodeEnv db).1 =
      ⟨200, some ⟨stripUser u, generateAccessToken u.id, generateRefreshToken u.id⟩,
        [⟨"accessToken", generateAccessToken u.id, true, nodeEnv == "production"⟩,
         ⟨"refreshToken", generateRefreshToken u.id, true, nodeEnv == "production"⟩]⟩ ∧
    (∀ v ∈ (loginUser username email password nodeEnv db).2.users,
      v.id = u.id → v.refreshToken = some (generateRefreshToken u.id)) := by
  have hb : (falsyOpt username && falsyOpt email) = false := by
    cases hu : falsyOpt username <;> cases he : falsyOpt email <;> simp_all
  have hmem : u ∈ db.users := List.mem_of_find?_eq_some hfind
  have hsome : (db.users.find? (fun v => v.id == u.id)).isSome := by
    rw [List.find?_isSome]
    exact ⟨u, hmem, by simp⟩
  obtain ⟨v0, hv0⟩ := Option.isSome_iff_exists.mp hsome
  constructor
  · simp [loginUser, hb, hfind, hpw, generateAccessAndRefreshTokens, hv0]
  · intro v hv hvid
    have husers : (loginUser username email password nodeEnv db).2.users =
        db.users.map (fun w =>
          if w.id == u.id then { w with refreshToken := some (generateRefreshToken u.id) }
          else w) := by
      simp [loginUser, hb, hfind, hpw, generateAccessAndRefreshTokens, hv0]
    rw [husers] at hv
    obtain ⟨w, hw, hweq⟩ := List.mem_map.mp hv
    by_cases hwid : (w.id == u.id) = true
    · rw [if_pos hwid] at hweq
      rw [← hweq]
    · rw [if_neg hwid] at hweq
      subst hweq
      exact absurd (by simp [hvid]) hwid

/-- **C7** (witness): logging in as "bob"/"pw1" outside production answers
200 with the stripped user, both tokens in body and cookies
(`httpOnly = true`, `secure = false`), and persists the refresh token. -/
theorem loginUser_success_witness :
    (loginUser (some "bob") none "pw1" "development" sampleDB).1 =
      ⟨200, some ⟨stripUser sampleUser, generateAccessToken 1, generateRefreshToken 1⟩,
        [⟨"accessToken", generateAccessToken 1, true, false⟩,
         ⟨"refreshToken", generateRefreshToken 1, true, false⟩]⟩ ∧
    (∀ v ∈ (loginUser (some "bob") none "pw1" "development" sampleDB).2.users,
      v.id = 1 → v.refreshToken = some (generateRefreshToken 1)) := by
  have h := loginUser_success (some "bob") none "pw1" "development" sampleDB
    sampleUser (by decide) (by decide) (by decide)
  exact h

/-- **C8**: once `deleteReview` has succeeded, `getMovieWithReviews` on the
resulting store never lists a review with the deleted id among the movie's
nested reviews. -/
theorem deleteReview_then_getMovie (reviewId movieId : Nat) (db : DB)
    (h : (deleteReview reviewId db).1.status = 204) :
    ∀ m l, (getMovieWithReviews movieId (deleteReview reviewId db).2).body = some (m, l) →
      ∀ r u, (r, u) ∈ l → r.id ≠ reviewId := by
  intro m l hbody r u hmem
  cases hf : db.reviews.find? (fun r => r.id == reviewId) with
  | none => simp [deleteReview, hf] at h
  | some r0 =>
    have hdb2 : (deleteReview reviewId db).2 =
        { db with reviews := db.reviews.filter (fun r => r.id != reviewId) } := by
      simp [deleteReview, hf]
    rw [hdb2] at hbody
    cases hm : db.movies.find? (fun m2 => m2.id == movieId) with
    | none => simp [getMovieWithReviews, hm] at hbody
    | some mv =>
      simp only [getMovieWithReviews, hm, Option.some.injEq, Prod.mk.injEq] at hbody
      obtain ⟨hmv, hl⟩ := hbody
      rw [← hl] at hmem
      obtain ⟨r1, hr1, hr1eq⟩ := List.mem_map.mp hmem
      have hr1mem : r1 ∈ (db.reviews.filter (fun r => r.id != reviewId)) :=
        (List.mem_filter.mp hr1).1
      have hne : (r1.id != reviewId) = true := (List.mem_filter.mp hr1mem).2
      have : r1 = r := congrArg Prod.fst hr1eq
      rw [← this]
      simpa using hne

/-- **C8** (witness): deleting review 1 from the two-review store and then
fetching movie 1 lists only review 2, whose id differs from the deleted
one. -/
theorem deleteReview_then_getMovie_witness : sampleReview2.id ≠ 1 :=
  deleteReview_then_getMovie 1 1 sampleDBR2 (by decide)
    sampleMovie [(sampleReview2, some sampleUser)] (by decide)
    sampleReview2 (some sampleUser) (by decide)

/-- **C9**: `updateReview` is idempotent — on an existing review, applying
the same `(reviewText, rating)` update twice leaves the store exactly as
one application does (and the update succeeds with 200). -/
theorem updateReview_idempotent (reviewId : Nat) (reviewText : String)
    (rating : Nat) (db : DB)
    (hex : ∃ r ∈ db.reviews, r.id = reviewId) :
    (updateReview reviewId reviewText rating
        ((updateReview reviewId reviewText rating db).2)).2 =
      (updateReview reviewId reviewText rating db).2 ∧
    (updateReview reviewId reviewText rating db).1.status = 200 := by
  have hfid : ∀ s : Review, (applyUpdate reviewId reviewText rating s).id = s.id := by
    intro s
    by_cases h : (s.id == reviewId) = true <;> simp [applyUpdate, h]
  have hff : ∀ s : Review,
      applyUpdate reviewId reviewText rating (applyUpdate reviewId reviewText rating s) =
        applyUpdate reviewId reviewText rating s := by
    intro s
    by_cases h : (s.id == reviewId) = true
    · have h2 : ((applyUpdate reviewId reviewText rating s).id == reviewId) = true := by
        rw [hfid]; exact h
      simp [applyUpdate, h, h2]
    · simp [applyUpdate, h]
  have hsome : (db.reviews.find? (fun s => s.id == reviewId)).isSome := by
    rw [List.find?_isSome]
    obtain ⟨r, hr, hid⟩ := hex
    exact ⟨r, hr, by simp [hid]⟩
  obtain ⟨r0, hr0⟩ := Option.isSome_iff_exists.mp hsome
  have hfind2 : ((db.reviews.map (applyUpdate reviewId reviewText rating)).find?
      (fun s => s.id == reviewId)) = some (applyUpdate reviewId reviewText rating r0) := by
    rw [List.find?_map]
    have hpe : ((fun s : Review => s.id == reviewId) ∘ applyUpdate reviewId reviewText rating) =
        (fun s : Review => s.id == reviewId) := by
      funext s
      simp [Function.comp, hfid]
    rw [hpe, hr0]
    rfl
  have hmapmap : (db.reviews.map (applyUpdate reviewId reviewText rating)).map
      (applyUpdate reviewId reviewText rating) =
      db.reviews.map (applyUpdate reviewId reviewText rating) := by
    rw [List.map_map]
    exact List.map_congr_left (fun x _ => hff x)
  constructor
  · simp [updateReview, hr0, hfind2, hmapmap]
  · simp [updateReview, hr0]

/-- **C9** (witness): updating review 1 twice with the same text and rating
leaves the store as after one update, and the update answers 200. -/
theorem updateReview_idempotent_witness :
    (updateReview 1 "new" 4 ((updateReview 1 "new" 4 sampleDBR).2)).2 =
      (updateReview 1 "new" 4 sampleDBR).2 ∧
    (updateReview 1 "new" 4 sampleDBR).1.status = 200 :=
  updateReview_idempotent 1 "new" 4 sampleDBR ⟨sampleReview, by decide, by decide⟩

/-- **C10**: for an authenticated request whose identity matches a stored
user, `getcurrentUser` answers 200 with the stored row itself — the hashed
`password` and the persisted `refreshToken` are part of the `User` payload,
nothing is stripped (unlike the register and login payloads). -/
theorem getcurrentUser_returns_raw_row (cookie : Option String) (uid : Nat)
    (db : DB) (u : User)
    (hc : authenticateToken cookie = .next uid)
    (hu : db.users.find? (fun v => v.id == uid) = some u) :
    getcurrentUserRoute cookie db = ⟨200, some u⟩ := by
  simp [getcurrentUserRoute, hc, getcurrentUser, hu]

/-- **C10** (witness): the stored row for identity 3 — hashed password
`hashPassword "pw3"` and persisted `refreshToken` included — is returned
verbatim. -/
theorem getcurrentUser_returns_raw_row_witness :
    getcurrentUserRoute (some (generateAccessToken 3)) sampleDBU =
      ⟨200, some sampleUserR⟩ ∧
    sampleUserR.password = hashPassword "pw3" ∧
    sampleUserR.refreshToken = some (generateRefreshToken 3) :=
  ⟨getcurrentUser_returns_raw_row (some (generateAccessToken 3)) 3 sampleDBU
      sampleUserR (by decide) (by decide),
   by decide, by decide⟩

end MovieReview
